import Mathlib

/-!
# Verification of the `creative-dev-lab` flow-field particle simulation

This file gives a shallow embedding, over the real numbers, of the
flow-field particle script of the repository (the standalone
particle-flow script: `PARTICLE_COUNT`, the particle initialization
loop, `noise3d`, and the per-frame `animate` loop), together with a
transcription of the structural facts about the experiment scripts
(scene setup, resize listeners, animation loops, asset loading and
error handling).

Modelling conventions:
* JavaScript numbers are modelled as real numbers (`ℝ`).
* The one place the script can produce `NaN` is the mouse-repulsion
  branch: when `dist = 0` the expression `dx / dist` is `0 / 0 = NaN`
  in JavaScript.  The per-particle step therefore returns an
  `Option Particle`, with `none` marking a `NaN`-contaminated particle.
* The `Float32Array` buffers are modelled as `List ℝ` with
  `List.set` / `List.getD` for the in-place writes and reads.
-/

namespace CreativeDevLab

/-- `const PARTICLE_COUNT = 5000` from the particle-flow script. -/
def PARTICLE_COUNT : ℕ := 5000

/-- The simplified noise of the particle-flow script:
`noise3d(x, y, z) = Math.sin(x*freq) * Math.cos(y*freq) * Math.sin(z*freq + x*0.01)`
with `freq = 0.02`. -/
noncomputable def noise3d (x y z : ℝ) : ℝ :=
  Real.sin (x * 0.02) * Real.cos (y * 0.02) * Real.sin (z * 0.02 + x * 0.01)

/-- The state of one particle: the three position slots and the three
velocity slots `positions[i3 .. i3+2]`, `velocities[i3 .. i3+2]` of the
parallel buffers. -/
structure Particle where
  px : ℝ
  py : ℝ
  pz : ℝ
  vx : ℝ
  vy : ℝ
  vz : ℝ

/-- The distance of a particle from the origin, exactly as the script
computes it: `Math.sqrt(x * x + y * y + z * z)`. -/
noncomputable def dist0 (p : Particle) : ℝ :=
  Real.sqrt (p.px * p.px + p.py * p.py + p.pz * p.pz)

/-- The xy-distance from a particle to the scaled mouse point, exactly as
the script computes it: `dx = x - mouse.x*30; dy = y - mouse.y*30;
dist = Math.sqrt(dx*dx + dy*dy)`. -/
noncomputable def mouseDist (mx my : ℝ) (p : Particle) : ℝ :=
  Real.sqrt ((p.px - mx * 30) * (p.px - mx * 30) + (p.py - my * 30) * (p.py - my * 30))

open Classical in
/-- One iteration of the `for (let i = 0; i < PARTICLE_COUNT; i++)` body of
`animate`, for a single particle.  `t` is the value of `time` during the
frame (the script does `time += 0.01` at the top of each frame), `(mx, my)`
is the current mouse position in normalized device coordinates.

The body, in source order:
* `x`, `y`, `z` are read once from the position buffer;
* noise forces: `noise3d` at the time-shifted position, one axis at a time;
* `velocities[..] += noise* * 0.02`;
* mouse repulsion: when `dist < 15`, `velocities[..] += (d* / dist) * force`
  with `force = (15 - dist) * 0.02`.  When `dist = 0` this is `0 / 0 = NaN`
  in JavaScript; the model returns `none` for that particle;
* damping `*= 0.98` on all three velocity slots;
* `posArray[..] += velocities[..]`;
* boundary: `currentDist` is computed from the `x`, `y`, `z` read at the
  top of the body (the pre-update position); when `currentDist > 60` the
  updated position slots are multiplied by `0.99`. -/
noncomputable def stepParticle (t mx my : ℝ) (p : Particle) : Option Particle :=
  let noiseX := noise3d (p.px + t * 10) p.py p.pz
  let noiseY := noise3d p.px (p.py + t * 10) p.pz
  let noiseZ := noise3d p.px p.py (p.pz + t * 10)
  let vx1 := p.vx + noiseX * 0.02
  let vy1 := p.vy + noiseY * 0.02
  let vz1 := p.vz + noiseZ * 0.02
  let dx := p.px - mx * 30
  let dy := p.py - my * 30
  let dist := Real.sqrt (dx * dx + dy * dy)
  if dist < 15 ∧ dist = 0 then
    none
  else
    let force := (15 - dist) * 0.02
    let vx2 := if dist < 15 then vx1 + dx / dist * force else vx1
    let vy2 := if dist < 15 then vy1 + dy / dist * force else vy1
    let vx3 := vx2 * 0.98
    let vy3 := vy2 * 0.98
    let vz3 := vz1 * 0.98
    let px1 := p.px + vx3
    let py1 := p.py + vy3
    let pz1 := p.pz + vz3
    let currentDist := Real.sqrt (p.px * p.px + p.py * p.py + p.pz * p.pz)
    if 60 < currentDist then
      some ⟨px1 * 0.99, py1 * 0.99, pz1 * 0.99, vx3, vy3, vz3⟩
    else
      some ⟨px1, py1, pz1, vx3, vy3, vz3⟩

open Classical in
/-- The per-particle update exactly as C1 words it: the velocity is
incremented by the noise-field force (0.02 times `noise3d` at the
time-shifted position, per axis) and, when the xy-distance to the scaled
mouse point is below 15, by a mouse-repulsion force of magnitude
`(15 - dist) * 0.02` along the unit vector away from the mouse; the
velocity is damped by the factor 0.98 per component; the position is
incremented by the damped velocity; and when the particle's distance from
the origin (read at the start of the frame, before the position update,
as in the source and in C3) exceeds 60, the position is re-centered by
multiplying each component by 0.99. -/
noncomputable def specStepParticle (t mx my : ℝ) (p : Particle) : Particle :=
  let d := mouseDist mx my p
  let unitAwayX := (p.px - mx * 30) / d
  let unitAwayY := (p.py - my * 30) / d
  let vx1 := p.vx + 0.02 * noise3d (p.px + t * 10) p.py p.pz
  let vy1 := p.vy + 0.02 * noise3d p.px (p.py + t * 10) p.pz
  let vz1 := p.vz + 0.02 * noise3d p.px p.py (p.pz + t * 10)
  let vx2 := if d < 15 then vx1 + (15 - d) * 0.02 * unitAwayX else vx1
  let vy2 := if d < 15 then vy1 + (15 - d) * 0.02 * unitAwayY else vy1
  let vx3 := 0.98 * vx2
  let vy3 := 0.98 * vy2
  let vz3 := 0.98 * vz1
  let px1 := p.px + vx3
  let py1 := p.py + vy3
  let pz1 := p.pz + vz3
  if 60 < dist0 p then
    ⟨0.99 * px1, 0.99 * py1, 0.99 * pz1, vx3, vy3, vz3⟩
  else
    ⟨px1, py1, pz1, vx3, vy3, vz3⟩

/-- The particle initialization loop:
`radius = 30 + Math.random() * 20`, `theta = Math.random() * Math.PI * 2`,
`phi = Math.acos(2 * Math.random() - 1)`, spherical position, zero
velocity.  The three `Math.random()` draws are the parameters
`uR`, `uTh`, `uPh`, each in `[0, 1)`. -/
noncomputable def initParticle (uR uTh uPh : ℝ) : Particle :=
  let radius := 30 + uR * 20
  let theta := uTh * Real.pi * 2
  let phi := Real.arccos (2 * uPh - 1)
  { px := radius * Real.sin phi * Real.cos theta
    py := radius * Real.sin phi * Real.sin theta
    pz := radius * Real.cos phi
    vx := 0
    vy := 0
    vz := 0 }

/-- The color slots written by the initialization loop for particle `i`:
`t = i / PARTICLE_COUNT; colors = (0.1 + t*0.9, 0.8 - t*0.4, 0.9)`. -/
noncomputable def initColor (i : ℕ) : ℝ × ℝ × ℝ :=
  let t : ℝ := (i : ℝ) / (PARTICLE_COUNT : ℝ)
  (0.1 + t * 0.9, 0.8 - t * 0.4, 0.9)

/-- `n` frames of the animation loop acting on a single particle.  Frame
number `k` (counting from 0) runs with `time = 0.01 * (k + 1)` (the script
does `time += 0.01` before the particle loop) and mouse position
`mouse k`.  `none` records that the particle was `NaN`-contaminated at
some frame. -/
noncomputable def runParticle (mouse : ℕ → ℝ × ℝ) : ℕ → Particle → Option Particle
  | 0, p => some p
  | k + 1, p =>
    (runParticle mouse k p).bind fun q =>
      stepParticle (0.01 * ((k : ℝ) + 1)) (mouse k).1 (mouse k).2 q

/-- The three parallel `Float32Array(PARTICLE_COUNT * 3)` buffers. -/
structure FlowState where
  positions : List ℝ
  velocities : List ℝ
  colors : List ℝ

/-- Particle `i` as read from the flat buffers: slots
`i*3`, `i*3+1`, `i*3+2` of the position and velocity buffers. -/
noncomputable def particleAt (pos vel : List ℝ) (i : ℕ) : Particle :=
  ⟨pos.getD (i * 3) 0, pos.getD (i * 3 + 1) 0, pos.getD (i * 3 + 2) 0,
   vel.getD (i * 3) 0, vel.getD (i * 3 + 1) 0, vel.getD (i * 3 + 2) 0⟩

/-- The three in-place writes `buf[i3] = a; buf[i3+1] = b; buf[i3+2] = c`
performed for particle `i`. -/
def writeParticle (l : List ℝ) (i : ℕ) (a b c : ℝ) : List ℝ :=
  ((l.set (i * 3) a).set (i * 3 + 1) b).set (i * 3 + 2) c

/-- The particle loop of `animate`, processing particles `0 .. k-1` in
order over the position and velocity buffers. -/
noncomputable def animateLoop (t mx my : ℝ) (pos vel : List ℝ) :
    ℕ → Option (List ℝ × List ℝ)
  | 0 => some (pos, vel)
  | k + 1 =>
    (animateLoop t mx my pos vel k).bind fun pv =>
      match stepParticle t mx my (particleAt pv.1 pv.2 k) with
      | none => none
      | some q =>
        some (writeParticle pv.1 k q.px q.py q.pz,
              writeParticle pv.2 k q.vx q.vy q.vz)

/-- One frame of `animate` on the whole state: the particle loop over all
`PARTICLE_COUNT` particles.  The color buffer is not touched by the loop. -/
noncomputable def animateFrame (t mx my : ℝ) (s : FlowState) : Option FlowState :=
  (animateLoop t mx my s.positions s.velocities PARTICLE_COUNT).map fun pv =>
    ⟨pv.1, pv.2, s.colors⟩

end CreativeDevLab

namespace CreativeDevLab

/-! ## Basic bounds on the noise field and the mouse distance -/

theorem noise3d_abs_le_one (x y z : ℝ) : |noise3d x y z| ≤ 1 := by
  unfold noise3d
  rw [abs_mul, abs_mul]
  have h1 := Real.abs_sin_le_one (x * 0.02)
  have h2 := Real.abs_cos_le_one (y * 0.02)
  have h3 := Real.abs_sin_le_one (z * 0.02 + x * 0.01)
  have n2 : (0:ℝ) ≤ |Real.cos (y * 0.02)| := abs_nonneg _
  have n3 : (0:ℝ) ≤ |Real.sin (z * 0.02 + x * 0.01)| := abs_nonneg _
  exact mul_le_one₀ (mul_le_one₀ h1 n2 h2) n3 h3

theorem mouseDist_nonneg (mx my : ℝ) (p : Particle) : 0 ≤ mouseDist mx my p :=
  Real.sqrt_nonneg _

theorem mouseDist_pos (mx my : ℝ) (p : Particle) (hd : mouseDist mx my p ≠ 0) :
    0 < mouseDist mx my p :=
  lt_of_le_of_ne (mouseDist_nonneg mx my p) (Ne.symm hd)

theorem abs_dx_le_mouseDist (mx my : ℝ) (p : Particle) :
    |p.px - mx * 30| ≤ mouseDist mx my p := by
  unfold mouseDist
  rw [← Real.sqrt_mul_self_eq_abs (p.px - mx * 30)]
  exact Real.sqrt_le_sqrt (by nlinarith [sq_nonneg (p.py - my * 30)])

theorem abs_dy_le_mouseDist (mx my : ℝ) (p : Particle) :
    |p.py - my * 30| ≤ mouseDist mx my p := by
  unfold mouseDist
  rw [← Real.sqrt_mul_self_eq_abs (p.py - my * 30)]
  exact Real.sqrt_le_sqrt (by nlinarith [sq_nonneg (p.px - mx * 30)])

/-! ## Characterization of the per-particle step -/

theorem stepParticle_eq_none (t mx my : ℝ) (p : Particle)
    (hd : mouseDist mx my p = 0) : stepParticle t mx my p = none := by
  unfold mouseDist at hd
  simp only [stepParticle]
  rw [if_pos ⟨by rw [hd]; norm_num, hd⟩]

theorem stepParticle_eq_specStep (t mx my : ℝ) (p : Particle)
    (hd : mouseDist mx my p ≠ 0) :
    stepParticle t mx my p = some (specStepParticle t mx my p) := by
  unfold mouseDist at hd
  simp only [stepParticle, specStepParticle, mouseDist, dist0]
  rw [if_neg (fun h => hd h.2)]
  split_ifs <;>
    · simp only [Option.some.injEq, Particle.mk.injEq]
      refine ⟨by ring, by ring, by ring, by ring, by ring, by ring⟩

theorem stepParticle_some_mouseDist_ne (t mx my : ℝ) (p q : Particle)
    (h : stepParticle t mx my p = some q) : mouseDist mx my p ≠ 0 := by
  intro hd
  rw [stepParticle_eq_none t mx my p hd] at h
  exact Option.noConfusion h

theorem stepParticle_some_eq (t mx my : ℝ) (p q : Particle)
    (h : stepParticle t mx my p = some q) : q = specStepParticle t mx my p := by
  have := stepParticle_eq_specStep t mx my p (stepParticle_some_mouseDist_ne t mx my p q h)
  rw [this] at h
  exact (Option.some.injEq _ _ ▸ h).symm

theorem specStep_vz (t mx my : ℝ) (p : Particle) :
    (specStepParticle t mx my p).vz =
      0.98 * (p.vz + 0.02 * noise3d p.px p.py (p.pz + t * 10)) := by
  simp only [specStepParticle]
  split_ifs <;> rfl

/-! ## Claim theorems: C1, C8, C9, C10 -/

/-- C1: one step of the animation loop updates a particle exactly as the
spec's arithmetic describes: velocity += noise-field force (0.02 times
`noise3d` at the time-shifted position, per axis) and, when the
xy-distance to the scaled mouse point is below 15, += a mouse-repulsion
force of magnitude `(15 - dist) * 0.02` along the unit vector away from
the mouse; velocity *= 0.98 per component; position += damped velocity;
and when the distance from the origin (read before the position update)
exceeds 60, position *= 0.99 per component.  The hypothesis excludes the
degenerate exact-hit case `dist = 0`, where the source divides `0 / 0`. -/
theorem animate_step_matches_spec_formula (t mx my : ℝ) (p : Particle)
    (hd : mouseDist mx my p ≠ 0) :
    stepParticle t mx my p = some (specStepParticle t mx my p) :=
  stepParticle_eq_specStep t mx my p hd

theorem animate_step_matches_spec_formula_witness :
    mouseDist 0 0 ⟨30, 0, 0, 0, 0, 0⟩ ≠ 0 ∧
      stepParticle 0.01 0 0 ⟨30, 0, 0, 0, 0, 0⟩ =
        some (specStepParticle 0.01 0 0 ⟨30, 0, 0, 0, 0, 0⟩) := by
  have hd : mouseDist 0 0 ⟨30, 0, 0, 0, 0, 0⟩ ≠ 0 := by
    unfold mouseDist
    rw [Real.sqrt_ne_zero']
    norm_num
  exact ⟨hd, animate_step_matches_spec_formula 0.01 0 0 ⟨30, 0, 0, 0, 0, 0⟩ hd⟩

/-- C8: for all real inputs, `noise3d` returns a value in `[-1, 1]` (a
product of sines and a cosine), so one frame's noise force changes each
velocity component by at most `0.02` in absolute value. -/
theorem noise3d_bounded_and_force_small (x y z : ℝ) :
    -1 ≤ noise3d x y z ∧ noise3d x y z ≤ 1 ∧ |noise3d x y z * 0.02| ≤ 0.02 := by
  have h := noise3d_abs_le_one x y z
  have h' := abs_le.mp h
  refine ⟨h'.1, h'.2, ?_⟩
  rw [abs_mul]
  rw [show |(0.02:ℝ)| = 0.02 by norm_num]
  nlinarith [abs_nonneg (noise3d x y z)]

/-- C9: the initializer gives every particle exactly zero velocity and
places it at distance `radius = 30 + uR * 20` from the origin, which lies
in `[30, 50]` when the random draw `uR` lies in `[0, 1)` — a spherical
shell, not a full ball. -/
theorem initParticle_zero_velocity_on_shell (uR uTh uPh : ℝ)
    (h0 : 0 ≤ uR) (h1 : uR < 1) :
    (initParticle uR uTh uPh).vx = 0 ∧ (initParticle uR uTh uPh).vy = 0 ∧
      (initParticle uR uTh uPh).vz = 0 ∧
      dist0 (initParticle uR uTh uPh) = 30 + uR * 20 ∧
      30 ≤ 30 + uR * 20 ∧ 30 + uR * 20 ≤ 50 := by
  refine ⟨rfl, rfl, rfl, ?_, by nlinarith, by nlinarith⟩
  simp only [initParticle, dist0]
  have hθ := Real.sin_sq_add_cos_sq (uTh * Real.pi * 2)
  have hφ := Real.sin_sq_add_cos_sq (Real.arccos (2 * uPh - 1))
  have hr : (0:ℝ) ≤ 30 + uR * 20 := by nlinarith
  have key : (30 + uR * 20) * Real.sin (Real.arccos (2 * uPh - 1)) *
        Real.cos (uTh * Real.pi * 2) *
        ((30 + uR * 20) * Real.sin (Real.arccos (2 * uPh - 1)) *
          Real.cos (uTh * Real.pi * 2)) +
      (30 + uR * 20) * Real.sin (Real.arccos (2 * uPh - 1)) *
        Real.sin (uTh * Real.pi * 2) *
        ((30 + uR * 20) * Real.sin (Real.arccos (2 * uPh - 1)) *
          Real.sin (uTh * Real.pi * 2)) +
      (30 + uR * 20) * Real.cos (Real.arccos (2 * uPh - 1)) *
        ((30 + uR * 20) * Real.cos (Real.arccos (2 * uPh - 1))) =
      (30 + uR * 20) * (30 + uR * 20) := by
    linear_combination
      ((30 + uR * 20) * (30 + uR * 20) *
        Real.sin (Real.arccos (2 * uPh - 1)) ^ 2) * hθ +
      ((30 + uR * 20) * (30 + uR * 20)) * hφ
  rw [key]
  exact Real.sqrt_mul_self hr

theorem initParticle_zero_velocity_on_shell_witness :
    (0:ℝ) ≤ 0 ∧ (0:ℝ) < 1 ∧
      ((initParticle 0 0 0.5).vx = 0 ∧ (initParticle 0 0 0.5).vy = 0 ∧
        (initParticle 0 0 0.5).vz = 0 ∧
        dist0 (initParticle 0 0 0.5) = 30 + 0 * 20 ∧
        30 ≤ 30 + (0:ℝ) * 20 ∧ 30 + (0:ℝ) * 20 ≤ 50) :=
  ⟨le_refl 0, by norm_num,
    initParticle_zero_velocity_on_shell 0 0 0.5 (le_refl 0) (by norm_num)⟩

/-- C10: the mouse-repulsion force is planar.  Whenever the step
produces a particle, its z-velocity equals
`(vz + noise3d(x, y, z + time*10) * 0.02) * 0.98`, an expression in
which the mouse position does not occur: only the noise force and the
damping ever change the z-velocity. -/
theorem mouse_repulsion_leaves_z_velocity (t mx my : ℝ) (p q : Particle)
    (h : stepParticle t mx my p = some q) :
    q.vz = (p.vz + noise3d p.px p.py (p.pz + t * 10) * 0.02) * 0.98 := by
  rw [stepParticle_some_eq t mx my p q h, specStep_vz]
  ring

theorem mouse_repulsion_leaves_z_velocity_witness :
    stepParticle 0 1 1 ⟨30, 0, 0, 0, 0, 0⟩ =
        some (specStepParticle 0 1 1 ⟨30, 0, 0, 0, 0, 0⟩) ∧
      (specStepParticle 0 1 1 ⟨30, 0, 0, 0, 0, 0⟩).vz =
        ((0:ℝ) + noise3d 30 0 (0 + 0 * 10) * 0.02) * 0.98 := by
  have hd : mouseDist 1 1 ⟨30, 0, 0, 0, 0, 0⟩ ≠ 0 := by
    unfold mouseDist
    rw [Real.sqrt_ne_zero']
    norm_num
  have hstep := stepParticle_eq_specStep 0 1 1 ⟨30, 0, 0, 0, 0, 0⟩ hd
  exact ⟨hstep,
    mouse_repulsion_leaves_z_velocity 0 1 1 ⟨30, 0, 0, 0, 0, 0⟩ _ hstep⟩

end CreativeDevLab

namespace CreativeDevLab

/-! ## The soft-containment invariant (C3) -/

/-- The soft-containment invariant preserved by the animation loop:
every velocity component stays within 16 and every position component
within 1600 in absolute value. -/
def Containment (p : Particle) : Prop :=
  |p.vx| ≤ 16 ∧ |p.vy| ≤ 16 ∧ |p.vz| ≤ 16 ∧
    |p.px| ≤ 1600 ∧ |p.py| ≤ 1600 ∧ |p.pz| ≤ 1600

theorem abs_mul3_le (a b c A : ℝ) (ha : |a| ≤ A) (hb : |b| ≤ 1) (hc : |c| ≤ 1) :
    |a * b * c| ≤ A := by
  rw [abs_mul, abs_mul]
  have h1 : |a| * |b| ≤ A := by nlinarith [abs_nonneg a, abs_nonneg b]
  nlinarith [abs_nonneg c, mul_nonneg (abs_nonneg a) (abs_nonneg b)]

theorem abs_px_le_dist0 (p : Particle) : |p.px| ≤ dist0 p := by
  unfold dist0
  rw [← Real.sqrt_mul_self_eq_abs p.px]
  exact Real.sqrt_le_sqrt (by nlinarith [sq_nonneg p.py, sq_nonneg p.pz])

theorem abs_py_le_dist0 (p : Particle) : |p.py| ≤ dist0 p := by
  unfold dist0
  rw [← Real.sqrt_mul_self_eq_abs p.py]
  exact Real.sqrt_le_sqrt (by nlinarith [sq_nonneg p.px, sq_nonneg p.pz])

theorem abs_pz_le_dist0 (p : Particle) : |p.pz| ≤ dist0 p := by
  unfold dist0
  rw [← Real.sqrt_mul_self_eq_abs p.pz]
  exact Real.sqrt_le_sqrt (by nlinarith [sq_nonneg p.px, sq_nonneg p.py])

/-- The mouse-repulsion term is at most `15 * 0.02 = 0.3` per component:
the direction factor `a / d` has absolute value at most 1 and the
magnitude `(15 - d) * 0.02` is at most `0.3` inside the `d < 15` branch. -/
theorem mouse_force_term_le (a d : ℝ) (hdpos : 0 < d) (h15 : d < 15)
    (ha : |a| ≤ d) : |(15 - d) * 0.02 * (a / d)| ≤ 0.3 := by
  have h1 : |a / d| ≤ 1 := by
    rw [abs_div, abs_of_pos hdpos]
    exact div_le_one_of_le₀ ha (le_of_lt hdpos)
  have h2 : |(15 - d) * 0.02| ≤ 0.3 := by
    rw [abs_mul, abs_of_pos (by linarith : (0:ℝ) < 15 - d)]
    rw [show |(0.02:ℝ)| = 0.02 by norm_num]
    linarith
  calc |(15 - d) * 0.02 * (a / d)| = |(15 - d) * 0.02| * |a / d| := abs_mul _ _
    _ ≤ 0.3 * 1 := by
        exact mul_le_mul h2 h1 (abs_nonneg _) (by norm_num)
    _ = 0.3 := by norm_num

/-- One damped velocity component stays within 16: the previous component
is within 16, the noise force within `0.02`, the mouse force within `0.3`,
and `0.98 * (16 + 0.02 + 0.3) ≤ 16`. -/
theorem vel_comp_bound (v n f : ℝ) (hv : |v| ≤ 16) (hn : |n| ≤ 1)
    (hf : |f| ≤ 0.3) : |0.98 * (v + 0.02 * n + f)| ≤ 16 := by
  have hn2 : |0.02 * n| ≤ 0.02 := by
    rw [abs_mul, show |(0.02:ℝ)| = 0.02 by norm_num]
    nlinarith [abs_nonneg n]
  have h1 : |v + 0.02 * n + f| ≤ 16.32 := by
    have := abs_add (v + 0.02 * n) f
    have := abs_add v (0.02 * n)
    linarith
  rw [abs_mul, show |(0.98:ℝ)| = 0.98 by norm_num]
  nlinarith [abs_nonneg (v + 0.02 * n + f)]

theorem vel_comp_bound0 (v n : ℝ) (hv : |v| ≤ 16) (hn : |n| ≤ 1) :
    |0.98 * (v + 0.02 * n)| ≤ 16 := by
  have := vel_comp_bound v n 0 hv hn (by norm_num)
  rw [add_zero] at this
  exact this

theorem pos_comp_far (x w : ℝ) (hx : |x| ≤ 1600) (hw : |w| ≤ 16) :
    |0.99 * (x + w)| ≤ 1600 := by
  rw [abs_mul, show |(0.99:ℝ)| = 0.99 by norm_num]
  have := abs_add x w
  nlinarith [abs_nonneg (x + w)]

theorem pos_comp_near (x w : ℝ) (hx : |x| ≤ 60) (hw : |w| ≤ 16) :
    |x + w| ≤ 1600 := by
  have := abs_add x w
  linarith

/-- The spec-form step preserves the containment invariant. -/
theorem specStep_containment (t mx my : ℝ) (p : Particle)
    (hd : mouseDist mx my p ≠ 0) (hp : Containment p) :
    Containment (specStepParticle t mx my p) := by
  obtain ⟨hvx, hvy, hvz, hpx, hpy, hpz⟩ := hp
  have hdpos := mouseDist_pos mx my p hd
  have hnx := noise3d_abs_le_one (p.px + t * 10) p.py p.pz
  have hny := noise3d_abs_le_one p.px (p.py + t * 10) p.pz
  have hnz := noise3d_abs_le_one p.px p.py (p.pz + t * 10)
  have hvz3 : |0.98 * (p.vz + 0.02 * noise3d p.px p.py (p.pz + t * 10))| ≤ 16 :=
    vel_comp_bound0 _ _ hvz hnz
  simp only [specStepParticle, Containment]
  split_ifs with h60 h15 h15
  case _ =>
    -- far from origin, mouse repulsion active
    have hfx := mouse_force_term_le (p.px - mx * 30) (mouseDist mx my p)
      hdpos h15 (abs_dx_le_mouseDist mx my p)
    have hfy := mouse_force_term_le (p.py - my * 30) (mouseDist mx my p)
      hdpos h15 (abs_dy_le_mouseDist mx my p)
    have hvx3 : |0.98 * (p.vx + 0.02 * noise3d (p.px + t * 10) p.py p.pz +
        (15 - mouseDist mx my p) * 0.02 * ((p.px - mx * 30) / mouseDist mx my p))| ≤ 16 :=
      vel_comp_bound _ _ _ hvx hnx hfx
    have hvy3 : |0.98 * (p.vy + 0.02 * noise3d p.px (p.py + t * 10) p.pz +
        (15 - mouseDist mx my p) * 0.02 * ((p.py - my * 30) / mouseDist mx my p))| ≤ 16 :=
      vel_comp_bound _ _ _ hvy hny hfy
    exact ⟨hvx3, hvy3, hvz3,
      pos_comp_far _ _ hpx hvx3, pos_comp_far _ _ hpy hvy3, pos_comp_far _ _ hpz hvz3⟩
  case _ =>
    -- far from origin, no mouse repulsion
    have hvx3 : |0.98 * (p.vx + 0.02 * noise3d (p.px + t * 10) p.py p.pz)| ≤ 16 :=
      vel_comp_bound0 _ _ hvx hnx
    have hvy3 : |0.98 * (p.vy + 0.02 * noise3d p.px (p.py + t * 10) p.pz)| ≤ 16 :=
      vel_comp_bound0 _ _ hvy hny
    exact ⟨hvx3, hvy3, hvz3,
      pos_comp_far _ _ hpx hvx3, pos_comp_far _ _ hpy hvy3, pos_comp_far _ _ hpz hvz3⟩
  case _ =>
    -- near the origin, mouse repulsion active
    have hnear : dist0 p ≤ 60 := le_of_not_lt h60
    have hx60 : |p.px| ≤ 60 := le_trans (abs_px_le_dist0 p) hnear
    have hy60 : |p.py| ≤ 60 := le_trans (abs_py_le_dist0 p) hnear
    have hz60 : |p.pz| ≤ 60 := le_trans (abs_pz_le_dist0 p) hnear
    have hfx := mouse_force_term_le (p.px - mx * 30) (mouseDist mx my p)
      hdpos h15 (abs_dx_le_mouseDist mx my p)
    have hfy := mouse_force_term_le (p.py - my * 30) (mouseDist mx my p)
      hdpos h15 (abs_dy_le_mouseDist mx my p)
    have hvx3 : |0.98 * (p.vx + 0.02 * noise3d (p.px + t * 10) p.py p.pz +
        (15 - mouseDist mx my p) * 0.02 * ((p.px - mx * 30) / mouseDist mx my p))| ≤ 16 :=
      vel_comp_bound _ _ _ hvx hnx hfx
    have hvy3 : |0.98 * (p.vy + 0.02 * noise3d p.px (p.py + t * 10) p.pz +
        (15 - mouseDist mx my p) * 0.02 * ((p.py - my * 30) / mouseDist mx my p))| ≤ 16 :=
      vel_comp_bound _ _ _ hvy hny hfy
    exact ⟨hvx3, hvy3, hvz3,
      pos_comp_near _ _ hx60 hvx3, pos_comp_near _ _ hy60 hvy3, pos_comp_near _ _ hz60 hvz3⟩
  case _ =>
    -- near the origin, no mouse repulsion
    have hnear : dist0 p ≤ 60 := le_of_not_lt h60
    have hx60 : |p.px| ≤ 60 := le_trans (abs_px_le_dist0 p) hnear
    have hy60 : |p.py| ≤ 60 := le_trans (abs_py_le_dist0 p) hnear
    have hz60 : |p.pz| ≤ 60 := le_trans (abs_pz_le_dist0 p) hnear
    have hvx3 : |0.98 * (p.vx + 0.02 * noise3d (p.px + t * 10) p.py p.pz)| ≤ 16 :=
      vel_comp_bound0 _ _ hvx hnx
    have hvy3 : |0.98 * (p.vy + 0.02 * noise3d p.px (p.py + t * 10) p.pz)| ≤ 16 :=
      vel_comp_bound0 _ _ hvy hny
    exact ⟨hvx3, hvy3, hvz3,
      pos_comp_near _ _ hx60 hvx3, pos_comp_near _ _ hy60 hvy3, pos_comp_near _ _ hz60 hvz3⟩

theorem step_preserves_containment (t mx my : ℝ) (p q : Particle)
    (h : stepParticle t mx my p = some q) (hp : Containment p) :
    Containment q := by
  rw [stepParticle_some_eq t mx my p q h]
  exact specStep_containment t mx my p (stepParticle_some_mouseDist_ne t mx my p q h) hp

theorem initParticle_containment (uR uTh uPh : ℝ) (h0 : 0 ≤ uR) (h1 : uR < 1) :
    Containment (initParticle uR uTh uPh) := by
  have hr : |30 + uR * 20| ≤ 50 := by
    rw [abs_of_nonneg (by nlinarith)]
    nlinarith
  have hx := abs_mul3_le (30 + uR * 20) (Real.sin (Real.arccos (2 * uPh - 1)))
    (Real.cos (uTh * Real.pi * 2)) 50 hr
    (Real.abs_sin_le_one _) (Real.abs_cos_le_one _)
  have hy := abs_mul3_le (30 + uR * 20) (Real.sin (Real.arccos (2 * uPh - 1)))
    (Real.sin (uTh * Real.pi * 2)) 50 hr
    (Real.abs_sin_le_one _) (Real.abs_sin_le_one _)
  have hz : |(30 + uR * 20) * Real.cos (Real.arccos (2 * uPh - 1))| ≤ 50 := by
    have := abs_mul3_le (30 + uR * 20) (Real.cos (Real.arccos (2 * uPh - 1))) 1 50 hr
      (Real.abs_cos_le_one _) (by norm_num)
    rw [mul_one] at this
    exact this
  refine ⟨?_, ?_, ?_, ?_, ?_, ?_⟩ <;>
    simp only [initParticle] <;>
    first
      | (rw [abs_zero]; norm_num)
      | linarith

theorem runParticle_containment (mouse : ℕ → ℝ × ℝ) (n : ℕ) (p : Particle)
    (hp : Containment p) :
    ∀ q, runParticle mouse n p = some q → Containment q := by
  induction n with
  | zero =>
    intro q hq
    simp only [runParticle] at hq
    exact (Option.some.injEq _ _ ▸ hq) ▸ hp
  | succ k ih =>
    intro q hq
    simp only [runParticle] at hq
    obtain ⟨r, hr, hstep⟩ := Option.bind_eq_some.mp hq
    exact step_preserves_containment _ _ _ r q hstep (ih r hr)

theorem dist0_le_of_containment (q : Particle) (hq : Containment q) :
    dist0 q ≤ 2800 := by
  obtain ⟨-, -, -, hx, hy, hz⟩ := hq
  have hsum : q.px * q.px + q.py * q.py + q.pz * q.pz ≤ 2800 * 2800 := by
    nlinarith [abs_mul_abs_self q.px, abs_mul_abs_self q.py, abs_mul_abs_self q.pz,
      abs_nonneg q.px, abs_nonneg q.py, abs_nonneg q.pz]
  calc dist0 q ≤ Real.sqrt (2800 * 2800) := Real.sqrt_le_sqrt hsum
    _ = 2800 := Real.sqrt_mul_self (by norm_num)

/-- C3: the bound `B = 2800` witnesses the claim.  For every particle
produced by the initializer, every number of frames, and every mouse
sequence with coordinates in `[-1, 1]`, whenever the animation loop has
produced a (`NaN`-free) particle state its distance from the origin is at
most 2800: with the re-centering rule (multiply the position by 0.99 when
the distance read before the position update exceeds 60), no particle's
distance from the origin diverges unboundedly, and every state keeps the
soft-containment invariant `Containment`. -/
theorem flow_distance_uniformly_bounded (mouse : ℕ → ℝ × ℝ)
    (_hm : ∀ k, |(mouse k).1| ≤ 1 ∧ |(mouse k).2| ≤ 1)
    (uR uTh uPh : ℝ) (h0 : 0 ≤ uR) (h1 : uR < 1) (n : ℕ) (q : Particle)
    (hq : runParticle mouse n (initParticle uR uTh uPh) = some q) :
    Containment q ∧ dist0 q ≤ 2800 := by
  have hc := runParticle_containment mouse n (initParticle uR uTh uPh)
    (initParticle_containment uR uTh uPh h0 h1) q hq
  exact ⟨hc, dist0_le_of_containment q hc⟩

/-- The constant zero mouse position, used by the witnesses. -/
def zeroMouse : ℕ → ℝ × ℝ := fun _ => (0, 0)

theorem flow_distance_uniformly_bounded_witness :
    (∀ k, |(zeroMouse k).1| ≤ 1 ∧ |(zeroMouse k).2| ≤ 1) ∧
      (0:ℝ) ≤ 0 ∧ (0:ℝ) < 1 ∧
      (Containment (initParticle 0 0 0.5) ∧ dist0 (initParticle 0 0 0.5) ≤ 2800) := by
  have hm : ∀ k, |(zeroMouse k).1| ≤ 1 ∧ |(zeroMouse k).2| ≤ 1 := by
    intro k
    constructor <;> simp [zeroMouse]
  exact ⟨hm, le_refl 0, by norm_num,
    flow_distance_uniformly_bounded zeroMouse hm 0 0 0.5 (le_refl 0) (by norm_num)
      0 (initParticle 0 0 0.5) rfl⟩

end CreativeDevLab

namespace CreativeDevLab

/-! ## C2: finiteness of the positions -/

/-- An initializer draw the script can make: `uR = 0` (radius 30),
`uTh = 0` (theta 0), `uPh = 1/2` (phi = arccos 0 = pi/2) puts the
particle at `(30, 0, 0)` with zero velocity. -/
theorem initParticle_explicit : initParticle 0 0 (1/2) = ⟨30, 0, 0, 0, 0, 0⟩ := by
  simp only [initParticle]
  norm_num [Real.arccos_zero, Real.sin_pi_div_two, Real.cos_pi_div_two,
    Real.cos_zero, Real.sin_zero]

/-- The constant mouse position `(1, 0)`: the cursor parked at the right
edge, vertical center — normalized coordinates in `[-1, 1]`. -/
def hitMouse : ℕ → ℝ × ℝ := fun _ => (1, 0)

/-- Counterexample to C2.  The initializer can produce the particle at
`(30, 0, 0)` (draws `uR = 0`, `uTh = 0`, `uPh = 1/2`).  With the mouse at
`(1, 0)` — coordinates in `[-1, 1]` — the first frame's repulsion branch
has `dx = 30 - 1*30 = 0`, `dy = 0`, `dist = 0 < 15`, and the source
computes `dx / dist = 0 / 0 = NaN`, which contaminates velocity and then
position.  In the model the run returns `none` (a `NaN`-poisoned
particle) after one frame, so the positions do not remain finite. -/
theorem positions_finite_counterexample :
    (∀ k, |(hitMouse k).1| ≤ 1 ∧ |(hitMouse k).2| ≤ 1) ∧
      (0:ℝ) ≤ 0 ∧ (0:ℝ) < 1 ∧ (0:ℝ) ≤ 1/2 ∧ (1/2:ℝ) < 1 ∧
      runParticle hitMouse 1 (initParticle 0 0 (1/2)) = none := by
  refine ⟨fun k => ⟨by norm_num [hitMouse], by norm_num [hitMouse]⟩,
    le_refl 0, by norm_num, by norm_num, by norm_num, ?_⟩
  rw [initParticle_explicit]
  simp only [runParticle, Option.some_bind]
  apply stepParticle_eq_none
  unfold mouseDist hitMouse
  norm_num [Real.sqrt_zero]

/-- C2 as amended: all position entries remain finite (the run never
produces a `NaN`) for every initial particle, every number of frames, and
every mouse sequence, provided the particle's xy-position never coincides
exactly with the scaled mouse point at the moment the repulsion branch
reads it — the one situation in which the source divides `0 / 0`. -/
theorem positions_finite_amended (mouse : ℕ → ℝ × ℝ) (p : Particle) (n : ℕ)
    (hsafe : ∀ k, k < n → ∀ q, runParticle mouse k p = some q →
      mouseDist (mouse k).1 (mouse k).2 q ≠ 0) :
    ∃ q, runParticle mouse n p = some q := by
  induction n with
  | zero => exact ⟨p, rfl⟩
  | succ k ih =>
    obtain ⟨q, hq⟩ := ih fun j hj => hsafe j (Nat.lt_succ_of_lt hj)
    refine ⟨specStepParticle (0.01 * ((k : ℝ) + 1)) (mouse k).1 (mouse k).2 q, ?_⟩
    simp only [runParticle, hq, Option.some_bind]
    exact stepParticle_eq_specStep _ _ _ q (hsafe k (Nat.lt_succ_self k) q hq)

theorem positions_finite_amended_witness :
    (∀ k, k < 1 → ∀ q, runParticle zeroMouse k ⟨30, 0, 0, 0, 0, 0⟩ = some q →
        mouseDist (zeroMouse k).1 (zeroMouse k).2 q ≠ 0) ∧
      ∃ q, runParticle zeroMouse 1 ⟨30, 0, 0, 0, 0, 0⟩ = some q := by
  have hsafe : ∀ k, k < 1 → ∀ q, runParticle zeroMouse k ⟨30, 0, 0, 0, 0, 0⟩ = some q →
      mouseDist (zeroMouse k).1 (zeroMouse k).2 q ≠ 0 := by
    intro k hk q hq
    rw [Nat.lt_one_iff] at hk
    subst hk
    simp only [runParticle, Option.some.injEq] at hq
    subst hq
    unfold mouseDist zeroMouse
    rw [Real.sqrt_ne_zero']
    norm_num
  exact ⟨hsafe, positions_finite_amended zeroMouse ⟨30, 0, 0, 0, 0, 0⟩ 1 hsafe⟩

end CreativeDevLab

namespace CreativeDevLab

/-! ## Buffer-level lemmas for the particle loop (C4, C5) -/

theorem getD_set_ne (l : List ℝ) (i j : ℕ) (a : ℝ) (h : i ≠ j) :
    (l.set i a).getD j 0 = l.getD j 0 := by
  rw [List.getD_eq_getElem?_getD, List.getD_eq_getElem?_getD, List.getElem?_set_ne h]

theorem getD_set_self (l : List ℝ) (i : ℕ) (a : ℝ) (h : i < l.length) :
    (l.set i a).getD i 0 = a := by
  rw [List.getD_eq_getElem?_getD, List.getElem?_set_self h]
  rfl

theorem length_writeParticle (l : List ℝ) (i : ℕ) (a b c : ℝ) :
    (writeParticle l i a b c).length = l.length := by
  simp [writeParticle, List.length_set]

theorem getD_writeParticle_ne (l : List ℝ) (i j : ℕ) (a b c : ℝ)
    (h0 : i * 3 ≠ j) (h1 : i * 3 + 1 ≠ j) (h2 : i * 3 + 2 ≠ j) :
    (writeParticle l i a b c).getD j 0 = l.getD j 0 := by
  unfold writeParticle
  rw [getD_set_ne _ _ _ _ h2, getD_set_ne _ _ _ _ h1, getD_set_ne _ _ _ _ h0]

theorem getD_writeParticle_self (l : List ℝ) (i : ℕ) (a b c : ℝ)
    (h : i * 3 + 2 < l.length) :
    (writeParticle l i a b c).getD (i * 3) 0 = a ∧
      (writeParticle l i a b c).getD (i * 3 + 1) 0 = b ∧
      (writeParticle l i a b c).getD (i * 3 + 2) 0 = c := by
  unfold writeParticle
  refine ⟨?_, ?_, ?_⟩
  · rw [getD_set_ne _ _ _ _ (by omega), getD_set_ne _ _ _ _ (by omega)]
    exact getD_set_self _ _ _ (by omega)
  · rw [getD_set_ne _ _ _ _ (by omega)]
    exact getD_set_self _ _ _ (by rw [List.length_set]; omega)
  · exact getD_set_self _ _ _ (by rw [List.length_set, List.length_set]; omega)

theorem particleAt_writeParticle_ne (pos vel : List ℝ) (i j : ℕ)
    (a b c d e f : ℝ) (hij : i ≠ j) :
    particleAt (writeParticle pos i a b c) (writeParticle vel i d e f) j =
      particleAt pos vel j := by
  unfold particleAt
  rw [getD_writeParticle_ne pos i (j * 3) a b c (by omega) (by omega) (by omega),
    getD_writeParticle_ne pos i (j * 3 + 1) a b c (by omega) (by omega) (by omega),
    getD_writeParticle_ne pos i (j * 3 + 2) a b c (by omega) (by omega) (by omega),
    getD_writeParticle_ne vel i (j * 3) d e f (by omega) (by omega) (by omega),
    getD_writeParticle_ne vel i (j * 3 + 1) d e f (by omega) (by omega) (by omega),
    getD_writeParticle_ne vel i (j * 3 + 2) d e f (by omega) (by omega) (by omega)]

theorem particleAt_writeParticle_self (pos vel : List ℝ) (i : ℕ) (q : Particle)
    (hp : i * 3 + 2 < pos.length) (hv : i * 3 + 2 < vel.length) :
    particleAt (writeParticle pos i q.px q.py q.pz)
      (writeParticle vel i q.vx q.vy q.vz) i = q := by
  obtain ⟨ha, hb, hc⟩ := getD_writeParticle_self pos i q.px q.py q.pz hp
  obtain ⟨hd, he, hf⟩ := getD_writeParticle_self vel i q.vx q.vy q.vz hv
  unfold particleAt
  rw [ha, hb, hc, hd, he, hf]

/-- The central loop lemma: after processing particles `0 .. k-1`, a
successful loop preserves the buffer lengths, has applied `stepParticle`
to every processed particle (reading its pre-frame slots), and has left
the slots of every unprocessed particle untouched. -/
theorem animateLoop_spec (t mx my : ℝ) (pos vel : List ℝ)
    (hp : pos.length = 3 * PARTICLE_COUNT) (hv : vel.length = 3 * PARTICLE_COUNT)
    (k : ℕ) (hk : k ≤ PARTICLE_COUNT) :
    ∀ pv, animateLoop t mx my pos vel k = some pv →
      pv.1.length = 3 * PARTICLE_COUNT ∧ pv.2.length = 3 * PARTICLE_COUNT ∧
      (∀ i, i < k →
        stepParticle t mx my (particleAt pos vel i) = some (particleAt pv.1 pv.2 i)) ∧
      (∀ j, k ≤ j → particleAt pv.1 pv.2 j = particleAt pos vel j) := by
  induction k with
  | zero =>
    intro pv hpv
    simp only [animateLoop, Option.some.injEq] at hpv
    subst hpv
    exact ⟨hp, hv, fun i hi => absurd hi (Nat.not_lt_zero i), fun j _ => rfl⟩
  | succ k ih =>
    intro pv hpv
    simp only [animateLoop] at hpv
    obtain ⟨pv0, h0, hstep⟩ := Option.bind_eq_some.mp hpv
    obtain ⟨hl1, hl2, hsteps, hfrozen⟩ := ih (Nat.le_of_succ_le hk) pv0 h0
    cases hq : stepParticle t mx my (particleAt pv0.1 pv0.2 k) with
    | none => rw [hq] at hstep; exact absurd hstep (by simp)
    | some q =>
      rw [hq] at hstep
      simp only [Option.some.injEq] at hstep
      subst hstep
      have hk' : k < PARTICLE_COUNT := hk
      have hb1 : k * 3 + 2 < pv0.1.length := by rw [hl1]; omega
      have hb2 : k * 3 + 2 < pv0.2.length := by rw [hl2]; omega
      have hfk : particleAt pv0.1 pv0.2 k = particleAt pos vel k := hfrozen k le_rfl
      refine ⟨?_, ?_, ?_, ?_⟩
      · simp only [length_writeParticle]; exact hl1
      · simp only [length_writeParticle]; exact hl2
      · intro i hi
        rcases Nat.lt_succ_iff_lt_or_eq.mp hi with hlt | heq
        · rw [particleAt_writeParticle_ne pv0.1 pv0.2 k i _ _ _ _ _ _ (by omega)]
          exact hsteps i hlt
        · subst heq
          rw [particleAt_writeParticle_self pv0.1 pv0.2 i q hb1 hb2]
          rw [← hfk]
          exact hq
      · intro j hj
        rw [particleAt_writeParticle_ne pv0.1 pv0.2 k j _ _ _ _ _ _ (by omega)]
        exact hfrozen j (by omega)

/-- If the step succeeds on every particle of the pre-frame buffers, the
loop itself succeeds. -/
theorem animateLoop_isSome (t mx my : ℝ) (pos vel : List ℝ)
    (hp : pos.length = 3 * PARTICLE_COUNT) (hv : vel.length = 3 * PARTICLE_COUNT)
    (k : ℕ) (hk : k ≤ PARTICLE_COUNT)
    (hs : ∀ i, i < k → ∃ q, stepParticle t mx my (particleAt pos vel i) = some q) :
    ∃ pv, animateLoop t mx my pos vel k = some pv := by
  induction k with
  | zero => exact ⟨(pos, vel), rfl⟩
  | succ k ih =>
    obtain ⟨pv0, h0⟩ := ih (Nat.le_of_succ_le hk) fun i hi => hs i (Nat.lt_succ_of_lt hi)
    obtain ⟨-, -, -, hfrozen⟩ :=
      animateLoop_spec t mx my pos vel hp hv k (Nat.le_of_succ_le hk) pv0 h0
    obtain ⟨q, hq⟩ := hs k (Nat.lt_succ_self k)
    refine ⟨(writeParticle pv0.1 k q.px q.py q.pz,
      writeParticle pv0.2 k q.vx q.vy q.vz), ?_⟩
    simp only [animateLoop, h0, Option.some_bind]
    rw [hfrozen k le_rfl, hq]

end CreativeDevLab

namespace CreativeDevLab

/-! ## Claim theorems: C4 and C5 -/

/-- `n` frames of `animate` on the whole state; frame `k` runs with
`time = 0.01 * (k + 1)` and mouse position `mouse k`, as `runParticle`
does for one particle. -/
noncomputable def runFrames (mouse : ℕ → ℝ × ℝ) : ℕ → FlowState → Option FlowState
  | 0, s => some s
  | k + 1, s =>
    (runFrames mouse k s).bind fun s' =>
      animateFrame (0.01 * ((k : ℝ) + 1)) (mouse k).1 (mouse k).2 s'

theorem animateFrame_lengths (t mx my : ℝ) (s s' : FlowState)
    (hp : s.positions.length = 3 * PARTICLE_COUNT)
    (hv : s.velocities.length = 3 * PARTICLE_COUNT)
    (hc : s.colors.length = 3 * PARTICLE_COUNT)
    (h : animateFrame t mx my s = some s') :
    s'.positions.length = 3 * PARTICLE_COUNT ∧
      s'.velocities.length = 3 * PARTICLE_COUNT ∧
      s'.colors.length = 3 * PARTICLE_COUNT := by
  unfold animateFrame at h
  obtain ⟨pv, hpv, heq⟩ := Option.map_eq_some'.mp h
  obtain ⟨hl1, hl2, -, -⟩ :=
    animateLoop_spec t mx my s.positions s.velocities hp hv PARTICLE_COUNT le_rfl pv hpv
  subst heq
  exact ⟨hl1, hl2, hc⟩

theorem runFrames_lengths (mouse : ℕ → ℝ × ℝ) (s : FlowState)
    (hp : s.positions.length = 3 * PARTICLE_COUNT)
    (hv : s.velocities.length = 3 * PARTICLE_COUNT)
    (hc : s.colors.length = 3 * PARTICLE_COUNT) (n : ℕ) :
    ∀ s', runFrames mouse n s = some s' →
      s'.positions.length = 3 * PARTICLE_COUNT ∧
        s'.velocities.length = 3 * PARTICLE_COUNT ∧
        s'.colors.length = 3 * PARTICLE_COUNT := by
  induction n with
  | zero =>
    intro s' h
    simp only [runFrames, Option.some.injEq] at h
    subst h
    exact ⟨hp, hv, hc⟩
  | succ k ih =>
    intro s' h
    simp only [runFrames] at h
    obtain ⟨s0, h0, hframe⟩ := Option.bind_eq_some.mp h
    obtain ⟨h1, h2, h3⟩ := ih s0 h0
    exact animateFrame_lengths _ _ _ s0 s' h1 h2 h3 hframe

/-- C4: the particle count stays constant across frames.  Starting from
the allocated buffers (`Float32Array(PARTICLE_COUNT * 3)` with
`PARTICLE_COUNT = 5000`), every (`NaN`-free) run of any number of frames
keeps all three buffers at length `3 * 5000`, and each frame's loop
updates every particle id `0 .. 4999` by the per-particle step, reading
and writing only that particle's three slots `i*3 .. i*3+2` of the
position and velocity buffers: no particle is added, removed, or left
out of the update. -/
theorem buffers_fixed_length_all_particles_updated
    (mouse : ℕ → ℝ × ℝ) (s : FlowState)
    (hp : s.positions.length = 3 * 5000) (hv : s.velocities.length = 3 * 5000)
    (hc : s.colors.length = 3 * 5000) :
    (∀ n s', runFrames mouse n s = some s' →
      s'.positions.length = 3 * 5000 ∧ s'.velocities.length = 3 * 5000 ∧
        s'.colors.length = 3 * 5000) ∧
    (∀ t mx my : ℝ, ∀ s', animateFrame t mx my s = some s' →
      ∀ i, i < 5000 →
        stepParticle t mx my (particleAt s.positions s.velocities i) =
          some (particleAt s'.positions s'.velocities i)) := by
  constructor
  · exact fun n => runFrames_lengths mouse s hp hv hc n
  · intro t mx my s' hs' i hi
    unfold animateFrame at hs'
    obtain ⟨pv, hpv, heq⟩ := Option.map_eq_some'.mp hs'
    obtain ⟨-, -, hsteps, -⟩ :=
      animateLoop_spec t mx my s.positions s.velocities hp hv PARTICLE_COUNT le_rfl pv hpv
    subst heq
    exact hsteps i hi

/-- The all-zero buffers, used by the witnesses: every particle at the
origin with zero velocity and zero color. -/
def zeroFlowState : FlowState :=
  ⟨List.replicate 15000 0, List.replicate 15000 0, List.replicate 15000 0⟩

theorem getD_replicate_zero (n j : ℕ) : (List.replicate n (0:ℝ)).getD j 0 = 0 := by
  rw [List.getD_eq_getElem?_getD, List.getElem?_replicate]
  split <;> rfl

theorem particleAt_zeroFlowState (i : ℕ) :
    particleAt zeroFlowState.positions zeroFlowState.velocities i =
      ⟨0, 0, 0, 0, 0, 0⟩ := by
  unfold particleAt zeroFlowState
  simp only [getD_replicate_zero]

theorem step_zero_particle_some (t : ℝ) :
    ∃ q, stepParticle t 1 1 ⟨0, 0, 0, 0, 0, 0⟩ = some q := by
  refine ⟨specStepParticle t 1 1 ⟨0, 0, 0, 0, 0, 0⟩, ?_⟩
  apply stepParticle_eq_specStep
  unfold mouseDist
  rw [Real.sqrt_ne_zero']
  norm_num

/-- With every particle at the origin and the mouse at `(1, 1)`, a frame
of the animation loop succeeds (no particle sits on the scaled mouse
point, which is at xy-distance `√1800` from the origin). -/
theorem zeroFrame_some : ∃ s', animateFrame 0.01 1 1 zeroFlowState = some s' := by
  have hp : zeroFlowState.positions.length = 3 * PARTICLE_COUNT := by
    simp only [zeroFlowState]
    rw [List.length_replicate]
    rfl
  have hv : zeroFlowState.velocities.length = 3 * PARTICLE_COUNT := by
    simp only [zeroFlowState]
    rw [List.length_replicate]
    rfl
  obtain ⟨pv, hpv⟩ := animateLoop_isSome 0.01 1 1 zeroFlowState.positions
    zeroFlowState.velocities hp hv PARTICLE_COUNT le_rfl (fun i _ => by
      rw [particleAt_zeroFlowState]
      exact step_zero_particle_some 0.01)
  exact ⟨⟨pv.1, pv.2, zeroFlowState.colors⟩, by
    unfold animateFrame
    rw [hpv, Option.map_some']⟩

/-- The constant mouse position `(1, 1)`, used by the buffer witnesses. -/
def cornerMouse : ℕ → ℝ × ℝ := fun _ => (1, 1)

theorem buffers_fixed_length_all_particles_updated_witness :
    zeroFlowState.positions.length = 3 * 5000 ∧
      zeroFlowState.velocities.length = 3 * 5000 ∧
      zeroFlowState.colors.length = 3 * 5000 ∧
      (∃ s', runFrames cornerMouse 1 zeroFlowState = some s') ∧
      ((∀ n s', runFrames cornerMouse n zeroFlowState = some s' →
        s'.positions.length = 3 * 5000 ∧ s'.velocities.length = 3 * 5000 ∧
          s'.colors.length = 3 * 5000) ∧
      (∀ t mx my : ℝ, ∀ s', animateFrame t mx my zeroFlowState = some s' →
        ∀ i, i < 5000 →
          stepParticle t mx my
              (particleAt zeroFlowState.positions zeroFlowState.velocities i) =
            some (particleAt s'.positions s'.velocities i))) := by
  have hp : zeroFlowState.positions.length = 3 * 5000 := by
    simp only [zeroFlowState]
    rw [List.length_replicate]
  have hv : zeroFlowState.velocities.length = 3 * 5000 := by
    simp only [zeroFlowState]
    rw [List.length_replicate]
  have hc : zeroFlowState.colors.length = 3 * 5000 := by
    simp only [zeroFlowState]
    rw [List.length_replicate]
  have hrun : ∃ s', runFrames cornerMouse 1 zeroFlowState = some s' := by
    obtain ⟨s', hs'⟩ := zeroFrame_some
    refine ⟨s', ?_⟩
    simp only [runFrames, Option.some_bind]
    rw [show (0.01 : ℝ) * (((0:ℕ) : ℝ) + 1) = 0.01 by norm_num]
    exact hs'
  exact ⟨hp, hv, hc, hrun,
    buffers_fixed_length_all_particles_updated cornerMouse zeroFlowState hp hv hc⟩

/-- Counterexample to C5 as stated: the animation loop never writes the
color buffer.  At the concrete all-zero state (mouse at `(1, 1)`), a full
frame succeeds and returns the color buffer unchanged, so it is not true
that each of the three buffers is mutated every frame. -/
theorem color_buffer_not_mutated_counterexample :
    ∃ s', animateFrame 0.01 1 1 zeroFlowState = some s' ∧
      s'.colors = zeroFlowState.colors := by
  obtain ⟨s', hs'⟩ := zeroFrame_some
  refine ⟨s', hs', ?_⟩
  unfold animateFrame at hs'
  obtain ⟨pv, -, heq⟩ := Option.map_eq_some'.mp hs'
  subst heq
  rfl

/-- C5 as amended: the per-particle state is the three parallel
fixed-length numeric buffers for position, velocity, and color, indexed
by particle id `0 .. N-1`; the animation loop mutates the position and
velocity buffers in place every frame (each particle's slots are
rewritten through the per-particle step), while the color buffer is
written only by the initializer and never touched by the animation
loop. -/
theorem particle_buffers_parallel_update (t mx my : ℝ) (s : FlowState)
    (hp : s.positions.length = 3 * 5000) (hv : s.velocities.length = 3 * 5000) :
    ∀ s', animateFrame t mx my s = some s' →
      s'.colors = s.colors ∧
      ∀ i, i < 5000 →
        stepParticle t mx my (particleAt s.positions s.velocities i) =
          some (particleAt s'.positions s'.velocities i) := by
  intro s' hs'
  unfold animateFrame at hs'
  obtain ⟨pv, hpv, heq⟩ := Option.map_eq_some'.mp hs'
  obtain ⟨-, -, hsteps, -⟩ :=
    animateLoop_spec t mx my s.positions s.velocities hp hv PARTICLE_COUNT le_rfl pv hpv
  subst heq
  exact ⟨rfl, fun i hi => hsteps i hi⟩

theorem particle_buffers_parallel_update_witness :
    zeroFlowState.positions.length = 3 * 5000 ∧
      zeroFlowState.velocities.length = 3 * 5000 ∧
      ∃ s', animateFrame 0.01 1 1 zeroFlowState = some s' ∧
        (s'.colors = zeroFlowState.colors ∧
          ∀ i, i < 5000 →
            stepParticle 0.01 1 1
                (particleAt zeroFlowState.positions zeroFlowState.velocities i) =
              some (particleAt s'.positions s'.velocities i)) := by
  have hp : zeroFlowState.positions.length = 3 * 5000 := by
    simp only [zeroFlowState]
    rw [List.length_replicate]
  have hv : zeroFlowState.velocities.length = 3 * 5000 := by
    simp only [zeroFlowState]
    rw [List.length_replicate]
  obtain ⟨s', hs'⟩ := zeroFrame_some
  exact ⟨hp, hv, s', hs',
    particle_buffers_parallel_update 0.01 1 1 zeroFlowState hp hv s' hs'⟩

end CreativeDevLab

namespace CreativeDevLab

/-! ## The experiment scripts (C6, C7)

One record per experiment script found in the repository, transcribing:
whether the script constructs a scene, camera and renderer; whether it
loads or constructs objects; whether it registers a window resize
listener; whether it starts a request-animation-frame loop; whether that
loop's body itself mutates object transforms, shader uniforms or
geometry attributes per frame (as opposed to only updating orbit
controls and re-rendering); whether the script loads external assets;
whether every asset load reports failure to the console (through a
loading-manager `onError` hook or a loader error callback); and whether
the script performs any error handling beyond console logging. -/

structure ExperimentScript where
  name : String
  buildsSceneCameraRenderer : Bool
  constructsObjects : Bool
  registersResizeListener : Bool
  runsAnimationLoop : Bool
  loopMutatesTransformsOrUniforms : Bool
  loadsAssets : Bool
  logsAssetLoadFailure : Bool
  hasOtherErrorHandling : Bool
deriving DecidableEq

/-- `src/experiments/002-first-scene/script.js`: scene, red cube, camera,
renderer, then a single `renderer.render(scene, camera)`. No resize
listener, no animation loop, no asset loads. -/
def firstSceneScript : ExperimentScript :=
  ⟨"002-first-scene", true, true, false, false, false, false, false, false⟩

/-- `src/unnamed/part_000` (003 - Transforms): groups and cubes, one
static render, `console.log` of vector methods. No resize listener, no
animation loop. -/
def transformsScript : ExperimentScript :=
  ⟨"003-transforms", true, true, false, false, false, false, false, false⟩

/-- `src/unnamed/part_000` (004 - Animations): three cubes animated with
`Clock` + `Math.sin/cos` in a `requestAnimationFrame` loop mutating
positions and rotations. No resize listener. -/
def animationsScript : ExperimentScript :=
  ⟨"004-animations", true, true, false, true, true, false, false, false⟩

/-- `src/unnamed/part_001` (005 - Cameras & OrbitControls): cube with
orbit controls; the tick loop only calls `controls.update()` and
renders. No resize listener. -/
def camerasScript : ExperimentScript :=
  ⟨"005-cameras", true, true, false, true, false, false, false, false⟩

/-- `src/experiments/008-geometries/src/script.js`: custom
`BufferGeometry`; tick loop only updates controls and renders. -/
def geometriesScript : ExperimentScript :=
  ⟨"008-geometries", true, true, true, true, false, false, false, false⟩

/-- `src/experiments/009-debug-ui/src/script.js`: lil-gui panel over a
cube; tick loop only updates controls and renders. -/
def debugUiScript : ExperimentScript :=
  ⟨"009-debug-ui", true, true, true, true, false, false, false, false⟩

/-- `src/experiments/010-textures/src/script.js`: door textures loaded
through a `LoadingManager` whose `onError` logs
`console.error('Error loading: ...')`; tick loop only updates controls
and renders. -/
def texturesScript : ExperimentScript :=
  ⟨"010-textures", true, true, true, true, false, true, true, false⟩

/-- `src/experiments/014-lights/src/script.js`: light showcase; tick
loop rotates sphere, cube and torus. -/
def lightsScript : ExperimentScript :=
  ⟨"014-lights", true, true, true, true, true, false, false, false⟩

/-- `src/experiments/015-shadows/src/script.js`: shadow demo; tick loop
moves the sphere on a circle. -/
def shadowsScript : ExperimentScript :=
  ⟨"015-shadows", true, true, true, true, true, false, false, false⟩

/-- `src/experiments/016-haunted-house/src/script.js` (first document):
haunted house; the texture loads are commented out; tick loop animates
the three ghost lights. -/
def hauntedHouseScript : ExperimentScript :=
  ⟨"016-haunted-house", true, true, true, true, true, false, false, false⟩

/-- `src/experiments/016-haunted-house/src/script.js` (second document,
the flag shader experiment): loads `/textures/flag.jpg` with a bare
`textureLoader.load(url)` — no error callback, no loading manager; tick
loop updates the `uTime` shader uniform. -/
def flagShaderScript : ExperimentScript :=
  ⟨"shaders-flag", true, true, true, true, true, true, false, false⟩

/-- `src/experiments/016-haunted-house/src/script.js` (third document,
the 3D text experiment): loads a matcap texture and a typeface font with
success-only callbacks; tick loop only updates controls and renders. -/
def textGeometryScript : ExperimentScript :=
  ⟨"3d-text", true, true, true, true, false, true, false, false⟩

/-- `src/experiments/020-physics/src/script.js`: cannon-es world; tick
loop steps the physics world and copies body transforms onto meshes. -/
def physicsScript : ExperimentScript :=
  ⟨"020-physics", true, true, true, true, true, false, false, false⟩

/-- `src/experiments/021-imported-models/src/script.js` (first
document): `gltfLoader.load` with progress and error callbacks, the
error callback logging `console.error('Error loading model:', error)`;
tick loop advances the animation mixer, which drives the model's
transforms. -/
def importedModelsScript : ExperimentScript :=
  ⟨"021-imported-models", true, true, true, true, true, true, true, false⟩

/-- `src/experiments/021-imported-models/src/script.js` (second
document, the raycaster experiment): three spheres; tick loop moves them
on sine waves and recolors them on hover. -/
def raycasterScript : ExperimentScript :=
  ⟨"raycaster", true, true, true, true, true, false, false, false⟩

/-- `src/README.md` (second embedded document, the 025-realistic-render
experiment): environment map and FlightHelmet model loaded with
`rgbeLoader.load` / `gltfLoader.load` success-only callbacks — no error
callback, no loading manager, so a load failure is not logged by the
script; tick loop only updates controls and renders. -/
def realisticRenderScript : ExperimentScript :=
  ⟨"025-realistic-render", true, true, true, true, false, true, false, false⟩

/-- `src/experiments/030-animated-galaxy/src/script.js`: procedural
galaxy (no asset loads); tick loop updates the `uTime` shader uniform. -/
def animatedGalaxyScript : ExperimentScript :=
  ⟨"030-animated-galaxy", true, true, true, true, true, false, false, false⟩

/-- `src/experiments/031-modified-materials/src/script.js`: loads a cube
environment map (`cubeTextureLoader.load([...])`, no callbacks) and a
GLB model (`gltfLoader.load(url, cb)`, success callback only) — a load
failure is not logged by the script; tick loop updates the injected
`uTime` uniform. -/
def modifiedMaterialsScript : ExperimentScript :=
  ⟨"031-modified-materials", true, true, true, true, true, true, false, false⟩

/-- `src/unnamed/part_000` (Environment Maps): `rgbeLoader.load` and
`gltfLoader.load` with success-only callbacks — failures are not logged
by the script; tick loop rotates the torus knot. -/
def envMapsScript : ExperimentScript :=
  ⟨"environment-maps", true, true, true, true, true, true, false, false⟩

/-- `src/unnamed/part_002` (Materials): nine bare `textureLoader.load`
calls and an `rgbeLoader.load` with a success-only callback — failures
are not logged by the script; tick loop rotates sphere, plane and
torus. -/
def materialsScript : ExperimentScript :=
  ⟨"materials", true, true, true, true, true, true, false, false⟩

/-- `src/unnamed/part_001` (Particles): 5000 random particles; tick loop
rewrites the y position slot of every particle (wave effect). -/
def particlesScript : ExperimentScript :=
  ⟨"particles", true, true, true, true, true, false, false, false⟩

/-- `src/unnamed/part_001` (the standalone particle-flow script embedded
above as `stepParticle` / `animateFrame`): tick loop rewrites the
position buffer and the rotation of the points object every frame. -/
def particleFlowScript : ExperimentScript :=
  ⟨"particle-flow", true, true, true, true, true, false, false, false⟩

/-- All experiment scripts of the repository. -/
def experimentScripts : List ExperimentScript :=
  [firstSceneScript, transformsScript, animationsScript, camerasScript,
   geometriesScript, debugUiScript, texturesScript, lightsScript,
   shadowsScript, hauntedHouseScript, flagShaderScript, textGeometryScript,
   physicsScript, importedModelsScript, raycasterScript, realisticRenderScript,
   animatedGalaxyScript, modifiedMaterialsScript, envMapsScript, materialsScript,
   particlesScript, particleFlowScript]

/-- C6's four steps, as the spec words them: construct
scene/camera/renderer, load/construct objects, register a resize
listener, and run a request-animation-frame loop that mutates object
transforms or shader uniforms per frame. -/
def FourSteps (s : ExperimentScript) : Prop :=
  s.buildsSceneCameraRenderer = true ∧ s.constructsObjects = true ∧
    s.registersResizeListener = true ∧ s.runsAnimationLoop = true ∧
    s.loopMutatesTransformsOrUniforms = true

/-- Counterexample to C6: `002-first-scene/script.js` builds the scene,
object, camera and renderer and renders exactly once — it registers no
resize listener and starts no request-animation-frame loop, so not every
experiment script performs all four steps. -/
theorem every_script_four_steps_counterexample :
    firstSceneScript ∈ experimentScripts ∧
      firstSceneScript.registersResizeListener = false ∧
      firstSceneScript.runsAnimationLoop = false ∧
      ¬ (∀ s ∈ experimentScripts, FourSteps s) := by
  refine ⟨by decide, rfl, rfl, fun h => ?_⟩
  exact absurd (h firstSceneScript (by decide)).2.2.1 (by decide)

/-- C6 as amended: every experiment script constructs a
scene/camera/renderer and loads or constructs objects; every script
registers a resize listener except the four early lessons
002-first-scene, 003-transforms, 004-animations and 005-cameras; every
script runs a request-animation-frame loop except the static
002-first-scene and 003-transforms; and the loops that mutate no
transform or uniform themselves (005-cameras, 008-geometries,
009-debug-ui, 010-textures, 3d-text, 025-realistic-render) only update
orbit controls and re-render. -/
theorem every_script_four_steps_amended :
    ∀ s ∈ experimentScripts,
      s.buildsSceneCameraRenderer = true ∧ s.constructsObjects = true ∧
        (s.registersResizeListener = false →
          s.name = "002-first-scene" ∨ s.name = "003-transforms" ∨
            s.name = "004-animations" ∨ s.name = "005-cameras") ∧
        (s.runsAnimationLoop = false →
          s.name = "002-first-scene" ∨ s.name = "003-transforms") ∧
        (s.runsAnimationLoop = true →
          s.loopMutatesTransformsOrUniforms = false →
          s.name = "005-cameras" ∨ s.name = "008-geometries" ∨
            s.name = "009-debug-ui" ∨ s.name = "010-textures" ∨
            s.name = "3d-text" ∨ s.name = "025-realistic-render") := by
  decide

theorem every_script_four_steps_amended_witness :
    lightsScript ∈ experimentScripts ∧
      (lightsScript.buildsSceneCameraRenderer = true ∧
        lightsScript.constructsObjects = true ∧
        (lightsScript.registersResizeListener = false →
          lightsScript.name = "002-first-scene" ∨
            lightsScript.name = "003-transforms" ∨
            lightsScript.name = "004-animations" ∨
            lightsScript.name = "005-cameras") ∧
        (lightsScript.runsAnimationLoop = false →
          lightsScript.name = "002-first-scene" ∨
            lightsScript.name = "003-transforms") ∧
        (lightsScript.runsAnimationLoop = true →
          lightsScript.loopMutatesTransformsOrUniforms = false →
          lightsScript.name = "005-cameras" ∨
            lightsScript.name = "008-geometries" ∨
            lightsScript.name = "009-debug-ui" ∨
            lightsScript.name = "010-textures" ∨
            lightsScript.name = "3d-text" ∨
            lightsScript.name = "025-realistic-render")) :=
  ⟨by decide, every_script_four_steps_amended lightsScript (by decide)⟩

/-- Counterexample to C7: `031-modified-materials` loads assets (a cube
environment map and a GLB model) but installs neither a loading-manager
`onError` hook nor a loader error callback, so a load failure is not
logged to the console by the experiment. -/
theorem asset_failure_logging_counterexample :
    modifiedMaterialsScript ∈ experimentScripts ∧
      modifiedMaterialsScript.loadsAssets = true ∧
      modifiedMaterialsScript.logsAssetLoadFailure = false ∧
      ¬ (∀ s ∈ experimentScripts, s.loadsAssets = true →
          s.logsAssetLoadFailure = true ∧ s.hasOtherErrorHandling = false) := by
  refine ⟨by decide, rfl, rfl, fun h => ?_⟩
  exact absurd (h modifiedMaterialsScript (by decide) rfl).1 (by decide)

/-- C7 as amended: no experiment performs any error handling beyond
console logging (no retry, recovery or taxonomy anywhere), and the only
experiments that log asset-load failures are 010-textures (via
`loadingManager.onError`) and 021-imported-models (via the
`gltfLoader.load` error callback); the other asset-loading experiments
(materials, environment-maps, the flag shader, 3d-text,
025-realistic-render, 031-modified-materials) install no failure
handler at all. -/
theorem asset_failure_logging_amended :
    ∀ s ∈ experimentScripts,
      s.hasOtherErrorHandling = false ∧
        (s.logsAssetLoadFailure = true →
          s.loadsAssets = true ∧
            (s.name = "010-textures" ∨ s.name = "021-imported-models")) := by
  decide

theorem asset_failure_logging_amended_witness :
    importedModelsScript ∈ experimentScripts ∧
      (importedModelsScript.hasOtherErrorHandling = false ∧
        (importedModelsScript.logsAssetLoadFailure = true →
          importedModelsScript.loadsAssets = true ∧
            (importedModelsScript.name = "010-textures" ∨
              importedModelsScript.name = "021-imported-models"))) :=
  ⟨by decide, asset_failure_logging_amended importedModelsScript (by decide)⟩

end CreativeDevLab
